import Mathlib

/-!
Verification of the scooter-rental front-door service.

Shallow embedding conventions:
* Go `float64` is modelled by `ℚ` (all constants appearing in the code are
  exactly representable and the operations used — multiplication, comparison,
  `math.Round`, `math.Ceil` — are exact on the value ranges involved).
* Times (`time.Time`) are modelled as `Int` seconds; durations in seconds.
* Go `int` is modelled by `Int` (no computation here approaches 2^63).
* Fallible calls are modelled by explicit outcome fields in an environment
  record; `*T` pointers by `Option T`; the Redis / Postgres stores by
  association lists keyed by id strings.
-/

namespace ScooterService

/-! ### Association-list lookup used to model keyed stores -/

def lookupKey {α : Type} (k : String) : List (String × α) → Option α
  | [] => none
  | (k2, v) :: rest => if k = k2 then some v else lookupKey k rest

/-! ### Pricing function — client/internal/domain/pricing/calculator.go -/

structure PricingInputs where
  zonePricePerMinute : Int
  zonePriceUnlock : Int
  zoneDefaultDeposit : Int
  surge : ℚ
  lowChargeDiscount : ℚ
  lowChargeThresholdPercent : Int
  scooterChargePercent : Int
  hasSubscription : Bool
  trusted : Bool
deriving DecidableEq, Repr

structure PricingOutput where
  pricePerMinute : Int
  priceUnlock : Int
  deposit : Int
deriving DecidableEq, Repr

/-- `safeFloat(v, def)` from calculator.go: returns the default when `v ≤ 0`. -/
def safeFloat (v d : ℚ) : ℚ := if v ≤ 0 then d else v

/-- Go `math.Round`: round half away from zero. -/
def goRound (q : ℚ) : Int := if 0 ≤ q then ⌊q + 1/2⌋ else ⌈q - 1/2⌉

/-- `Calculate` from calculator.go.  Note the guard on the low-charge
discount: `ScooterChargePercent >= 0 && LowChargeThresholdPercent > 0 &&
ScooterChargePercent < LowChargeThresholdPercent`. -/
def Calculate (i : PricingInputs) : PricingOutput :=
  let ppm0 : ℚ := (i.zonePricePerMinute : ℚ) * safeFloat i.surge 1
  let ppm : ℚ :=
    if i.scooterChargePercent ≥ 0 ∧ i.lowChargeThresholdPercent > 0 ∧
        i.scooterChargePercent < i.lowChargeThresholdPercent then
      ppm0 * safeFloat i.lowChargeDiscount 1
    else ppm0
  let pricePerMinute := goRound ppm
  let pricePerMinute := if pricePerMinute < 0 then 0 else pricePerMinute
  let priceUnlock := if i.hasSubscription then 0 else i.zonePriceUnlock
  let priceUnlock := if priceUnlock < 0 then 0 else priceUnlock
  let deposit := if i.trusted then 0 else i.zoneDefaultDeposit
  let deposit := if deposit < 0 then 0 else deposit
  ⟨pricePerMinute, priceUnlock, deposit⟩

/-- Variant of `Calculate` that applies the low-charge discount under the
condition exactly as claim C7 words it (`charge < threshold` and
`threshold > 0`, with no constraint on the sign of the charge).  Used only to
compare the claim's wording with the source. -/
def CalculateClaimCond (i : PricingInputs) : PricingOutput :=
  let ppm0 : ℚ := (i.zonePricePerMinute : ℚ) * safeFloat i.surge 1
  let ppm : ℚ :=
    if i.scooterChargePercent < i.lowChargeThresholdPercent ∧
        i.lowChargeThresholdPercent > 0 then
      ppm0 * safeFloat i.lowChargeDiscount 1
    else ppm0
  let pricePerMinute := goRound ppm
  let pricePerMinute := if pricePerMinute < 0 then 0 else pricePerMinute
  let priceUnlock := if i.hasSubscription then 0 else i.zonePriceUnlock
  let priceUnlock := if priceUnlock < 0 then 0 else priceUnlock
  let deposit := if i.trusted then 0 else i.zoneDefaultDeposit
  let deposit := if deposit < 0 then 0 else deposit
  ⟨pricePerMinute, priceUnlock, deposit⟩

/-! ### Dynamic configs — client/internal/external/client.go `GetConfigs`
and the offers service defaults. -/

structure DynamicConfigs where
  surge : ℚ
  lowChargeDiscount : ℚ
  lowChargeThresholdPercent : Int
  incompleteRideThresholdSeconds : Int
deriving DecidableEq, Repr

/-- The JSON body of a 200 response of upstream `GET /configs`: each key may
be absent (or not a number, which the type assertion in the Go code treats
the same way); numbers arrive as `float64`. -/
structure ConfigsJson where
  surge : Option ℚ
  lowChargeDiscount : Option ℚ
  lowChargeThresholdPercent : Option ℚ
  incompleteRideThresholdSeconds : Option ℚ
deriving DecidableEq, Repr

/-- Go `int(v)` conversion from `float64`: truncation toward zero. -/
def goTrunc (q : ℚ) : Int := if 0 ≤ q then ⌊q⌋ else ⌈q⌉

/-- `GetConfigs` mapping of a 200 body (client.go): starts from the
fallback values `{1.0, 1.0, 0, 0}` and overwrites each field whose key is
present as a number. -/
def GetConfigs (m : ConfigsJson) : DynamicConfigs :=
  let cfg : DynamicConfigs := ⟨1, 1, 0, 0⟩
  let cfg := match m.surge with
    | some v => { cfg with surge := v }
    | none => cfg
  let cfg := match m.lowChargeDiscount with
    | some v => { cfg with lowChargeDiscount := v }
    | none => cfg
  let cfg := match m.lowChargeThresholdPercent with
    | some v => { cfg with lowChargeThresholdPercent := goTrunc v }
    | none => cfg
  let cfg := match m.incompleteRideThresholdSeconds with
    | some v => { cfg with incompleteRideThresholdSeconds := goTrunc v }
    | none => cfg
  cfg

/-- `getDefaultConfigs` from the offers service: the documented cold-start
defaults. -/
def getDefaultConfigs : DynamicConfigs :=
  ⟨12/10, 7/10, 28, 5⟩

/-! ### Offer repository over Redis —
client/internal/storage/redis/offer_repo.go.

The Redis store is modelled as the set of used-sentinel keys together with
the remaining TTL of every offer key.  TTLs are recorded faithfully (the
`MarkOfferAsUsed` code computes one) but the passage of time and hence key
expiry is outside the model; the spec itself treats expiry only as garbage
collection of the sentinel. -/

structure RedisState where
  offerTtl : List (String × Int)
  used : List (String × Int)
deriving DecidableEq, Repr

/-- `MarkOfferAsUsed` (offer_repo.go): reads the TTL of `offer:{id}`
(Redis returns a non-positive value when the key is missing or has no
expiry, modelled by a missing entry ↦ `-2`), falls back to 5 minutes when
the TTL is non-positive, then `SETNX offer:{id}:used` with that TTL.
Returns whether the sentinel was newly set, plus the new store state. -/
def MarkOfferAsUsed (s : RedisState) (offerID : String) : Bool × RedisState :=
  let ttl0 : Int := (lookupKey offerID s.offerTtl).getD (-2)
  let ttl : Int := if ttl0 ≤ 0 then 300 else ttl0
  match lookupKey offerID s.used with
  | some _ => (false, s)
  | none => (true, { s with used := (offerID, ttl) :: s.used })

/-- `n` successive calls of `MarkOfferAsUsed` on the same offer id:
the list of returned booleans and the final store state. -/
def markTrace (offerID : String) : Nat → RedisState → List Bool × RedisState
  | 0, s => ([], s)
  | n + 1, s =>
    let step := MarkOfferAsUsed s offerID
    let rest := markTrace offerID n step.2
    (step.1 :: rest.1, rest.2)

/-! ### Zone cache — client/internal/domain/offers/service.go
`getZoneWithCache`.

The function reads the shared zone cache twice (before the upstream call
and, on upstream failure, again for the fallback); between the two reads a
concurrent request may have promoted a value, so the two observed entries
are separate parameters.  Both usability checks compare against the `now`
captured at the first read — an entry that expires during the upstream call
still counts as usable, exactly as the source does. -/

structure TariffZone where
  id : String
  pricePerMinute : Int
  priceUnlock : Int
  defaultDeposit : Int
deriving DecidableEq, Repr

structure ZoneCacheEntry where
  zone : TariffZone
  expiresAt : Int
deriving DecidableEq, Repr

inductive OfferErr where
  | invalidRequest
  | repoGetFailed
  | scootersUnavailable
  | scooterNotFound
  | zoneUnavailable
  | saveFailed
  | indexFailed
deriving DecidableEq, Repr

/-- `zoneCacheTTL` = 10 minutes, set in `NewService`. -/
def zoneCacheTTL : Int := 600

/-- The cache-miss path of `getZoneWithCache`: call the upstream, cache on
success, otherwise fall back to the second cache read (checked against the
`now` captured at the first read), else `zone_unavailable`. -/
def zoneFetchPath (now : Int) (fetch : Option TariffZone)
    (entry2 : Option ZoneCacheEntry) (nowUpd : Int) :
    Except OfferErr TariffZone × Bool × Option ZoneCacheEntry :=
  match fetch with
  | some z => (.ok z, true, some ⟨z, nowUpd + zoneCacheTTL⟩)
  | none =>
    match entry2 with
    | some e =>
      if now < e.expiresAt then (.ok e.zone, true, entry2)
      else (.error .zoneUnavailable, true, entry2)
    | none => (.error .zoneUnavailable, true, entry2)

/-- `getZoneWithCache`.  `entry1` is the cache entry observed by the first
read, `now` the time captured there; `fetch` is the upstream
`GetTariffZoneData` outcome (`none` covers both a transport error and a nil
zone, which the code treats identically); `entry2` is the entry observed by
the fallback read; `nowUpd` the time at which a fetched zone is cached.
Returns (result, whether the upstream was called, the entry this zone id
maps to afterwards). -/
def getZoneWithCache (entry1 : Option ZoneCacheEntry) (now : Int)
    (fetch : Option TariffZone) (entry2 : Option ZoneCacheEntry)
    (nowUpd : Int) :
    Except OfferErr TariffZone × Bool × Option ZoneCacheEntry :=
  match entry1 with
  | some e =>
    if now < e.expiresAt then (.ok e.zone, false, entry1)
    else zoneFetchPath now fetch entry2 nowUpd
  | none => zoneFetchPath now fetch entry2 nowUpd

/-! ### Offer service — client/internal/domain/offers/service.go
`CreateOffer`. -/

structure Offer where
  id : String
  userId : String
  scooterId : String
  zoneId : String
  pricePerMinute : Int
  priceUnlock : Int
  deposit : Int
  createdAt : Int
  expiresAt : Int
deriving DecidableEq, Repr

structure ScooterData where
  id : String
  zoneId : String
  charge : Int
deriving DecidableEq, Repr

structure UserProfile where
  hasSubscription : Bool
  trusted : Bool
deriving DecidableEq, Repr

structure CreateOfferRequest where
  userId : String
  scooterId : String
deriving DecidableEq, Repr

/-- Outcomes of the external calls and stores that one `CreateOffer`
invocation observes. -/
structure OfferEnv where
  existingErr : Bool
  existing : Option Offer
  scooterErr : Bool
  scooter : Option ScooterData
  zoneEntry1 : Option ZoneCacheEntry
  zoneNow : Int
  zoneFetch : Option TariffZone
  zoneEntry2 : Option ZoneCacheEntry
  zoneNowUpd : Int
  profile : Option UserProfile
  cfg : DynamicConfigs
  now : Int
  offerId : String
  saveErr : Bool
  indexErr : Bool

/-- `CreateOffer` (first, authoritative revision of service.go):
validation → idempotent lookup by (user, scooter) → scooter data
(critical) → zone via `getZoneWithCache` → optional user profile → cached
configs → `Calculate` → build the offer with
`expiresAt = now + 10 minutes` → persist. -/
def CreateOffer (req : CreateOfferRequest) (env : OfferEnv) :
    Except OfferErr Offer :=
  if req.userId = "" ∨ req.scooterId = "" then .error .invalidRequest
  else if env.existingErr then .error .repoGetFailed
  else match env.existing with
  | some existing => .ok existing
  | none =>
    if env.scooterErr then .error .scootersUnavailable
    else match env.scooter with
    | none => .error .scooterNotFound
    | some scooter =>
      match getZoneWithCache env.zoneEntry1 env.zoneNow env.zoneFetch
          env.zoneEntry2 env.zoneNowUpd with
      | (.error e, _, _) => .error e
      | (.ok zone, _, _) =>
        let hasSub := match env.profile with
          | some p => p.hasSubscription
          | none => false
        let trusted := match env.profile with
          | some p => p.trusted
          | none => false
        let out := Calculate
          ⟨zone.pricePerMinute, zone.priceUnlock, zone.defaultDeposit,
            env.cfg.surge, env.cfg.lowChargeDiscount,
            env.cfg.lowChargeThresholdPercent, scooter.charge, hasSub,
            trusted⟩
        let offer : Offer :=
          { id := env.offerId
            userId := req.userId
            scooterId := req.scooterId
            zoneId := scooter.zoneId
            pricePerMinute := out.pricePerMinute
            priceUnlock := out.priceUnlock
            deposit := out.deposit
            createdAt := env.now
            expiresAt := env.now + 600 }
        if env.saveErr then .error .saveFailed
        else if env.indexErr then .error .indexFailed
        else .ok offer

/-! ### Order data model — generated api.Order and api.OrderStatus. -/

inductive OrderStatus where
  | ACTIVE
  | FINISHED
  | CANCELLED
  | PAYMENTFAILED
deriving DecidableEq, Repr

structure Order where
  id : String
  offerId : String
  userId : String
  scooterId : String
  status : OrderStatus
  startTime : Int
  finishTime : Option Int
  durationSeconds : Option Int
  pricePerMinute : Option Int
  priceUnlock : Option Int
  deposit : Option Int
  currentAmount : Option Int
deriving DecidableEq, Repr

/-! ### Order service — `CreateOrder` (src/unnamed/part_004).

The Redis offer store and the Postgres order store are carried explicitly;
outcomes of the fallible external calls are an oracle record, one per
invocation.  Effects (payment calls, row inserts, cache writes) are counted
so that claims about "no side effects" and "called at most once" are
statable. -/

structure CreateOrderRequest where
  orderId : String
  offerId : String
  userId : String
deriving DecidableEq, Repr

structure OrdersState where
  orders : List (String × Order)
  offers : List (String × Offer)
  used : List String
  cache : List (String × Order)
deriving DecidableEq, Repr

structure CreateEnv where
  getOrderErr : Bool
  getOfferErr : Bool
  markErr : Bool
  holdTransportErr : Bool
  holdOk : Bool
  holdTxId : String
  dbErr : Bool
  unholdErr : Bool
  hasCache : Bool
  now : Int
deriving DecidableEq, Repr

inductive CreateErr where
  | emptyOrderId
  | repoGetFailed
  | offerRepoFailed
  | offerNotFound
  | offerExpired
  | invalidUser
  | markFailed
  | offerAlreadyUsed
  | holdFailed
  | holdNotSuccess
  | dbFailed
deriving DecidableEq, Repr

structure Effects where
  holdCalls : Nat
  unholdCalls : Nat
  rowsInserted : Nat
  cacheWrites : Nat
deriving DecidableEq, Repr

def Effects.empty : Effects := ⟨0, 0, 0, 0⟩

/-- Result of the early-return prefix of `CreateOrder`: either the service
returns right away (with no state change and no side effect), or
validation passed and the offer is about to be consumed. -/
inductive CreateStep where
  | early (r : Except CreateErr Order)
  | proceed (offer : Offer)
deriving Repr

/-- The early-return prefix of the service `CreateOrder`: required order
id, idempotent lookup by order id, offer lookup, expiry check
(`time.Now().After(expires_at)`), user match, and the mark-as-used
check-and-set precondition (an error or an already-present sentinel stops
the call before any side effect). -/
def CreateOrder_check (req : CreateOrderRequest) (env : CreateEnv)
    (s : OrdersState) : CreateStep :=
  if req.orderId = "" then .early (.error .emptyOrderId)
  else if env.getOrderErr then .early (.error .repoGetFailed)
  else match lookupKey req.orderId s.orders with
  | some existing => .early (.ok existing)
  | none =>
    if env.getOfferErr then .early (.error .offerRepoFailed)
    else match lookupKey req.offerId s.offers with
    | none => .early (.error .offerNotFound)
    | some offer =>
      if env.now > offer.expiresAt then .early (.error .offerExpired)
      else if offer.userId ≠ req.userId then .early (.error .invalidUser)
      else if env.markErr then .early (.error .markFailed)
      else if req.offerId ∈ s.used then .early (.error .offerAlreadyUsed)
      else .proceed offer

/-- The effectful suffix of the service `CreateOrder`, entered once
validation passed: set the used sentinel, hold the deposit, insert the
order row (compensating a failed insert with a fire-and-forget unhold whose
outcome `env.unholdErr` the code discards), then the best-effort cache
write. -/
def CreateOrder_commit (req : CreateOrderRequest) (env : CreateEnv)
    (s : OrdersState) (offer : Offer) :
    Except CreateErr Order × OrdersState × Effects :=
  let s1 := { s with used := req.offerId :: s.used }
  if env.holdTransportErr then
    (.error .holdFailed, s1, { Effects.empty with holdCalls := 1 })
  else if env.holdOk = false then
    (.error .holdNotSuccess, s1, { Effects.empty with holdCalls := 1 })
  else
    let order : Order :=
      { id := req.orderId
        offerId := req.offerId
        userId := req.userId
        scooterId := offer.scooterId
        status := .ACTIVE
        startTime := env.now
        finishTime := none
        durationSeconds := none
        pricePerMinute := some offer.pricePerMinute
        priceUnlock := some offer.priceUnlock
        deposit := some offer.deposit
        currentAmount := some offer.priceUnlock }
    if env.dbErr then
      (.error .dbFailed, s1,
        { Effects.empty with holdCalls := 1, unholdCalls := 1 })
    else
      let s2 := { s1 with orders := (req.orderId, order) :: s1.orders }
      let s3 := if env.hasCache then
          { s2 with cache := (req.orderId, order) :: s2.cache }
        else s2
      (.ok order, s3,
        { holdCalls := 1, unholdCalls := 0, rowsInserted := 1,
          cacheWrites := if env.hasCache then 1 else 0 })

/-- `CreateOrder` of the order service: the early-return prefix followed,
when validation passes, by the effectful suffix. -/
def CreateOrder (req : CreateOrderRequest) (env : CreateEnv)
    (s : OrdersState) : Except CreateErr Order × OrdersState × Effects :=
  match CreateOrder_check req env s with
  | .early r => (r, s, Effects.empty)
  | .proceed offer => CreateOrder_commit req env s offer

/-- A sequence of `CreateOrder` invocations with the same request, one
environment per call: the per-call (result, effects) pairs and the final
state. -/
def createTrace (req : CreateOrderRequest) :
    List CreateEnv → OrdersState →
    List (Except CreateErr Order × Effects) × OrdersState
  | [], s => ([], s)
  | env :: envs, s =>
    let step := CreateOrder req env s
    let rest := createTrace req envs step.2.1
    ((step.1, step.2.2) :: rest.1, rest.2)

def traceHolds (tr : List (Except CreateErr Order × Effects)) : Nat :=
  (tr.map fun p => p.2.holdCalls).sum

def traceRows (tr : List (Except CreateErr Order × Effects)) : Nat :=
  (tr.map fun p => p.2.rowsInserted).sum

/-! ### Order service — `FinishOrder` (src/unnamed/part_004) and the
repository finish write (order_repo.go). -/

/-- The argument tuple of the repository `FinishOrder` write. -/
structure FinishWrite where
  finishTime : Int
  durationSeconds : Int
  totalAmount : Int
  finalStatus : OrderStatus
  chargeSuccess : Bool
  unholdSuccess : Bool
  chargeTxId : String
deriving DecidableEq, Repr

inductive TxType where
  | HOLD
  | CLEAR
  | REFUND
deriving DecidableEq, Repr

inductive TxStatus where
  | SUCCESS
  | FAILED
  | PENDING
deriving DecidableEq, Repr

structure PaymentTransaction where
  txType : TxType
  amount : Int
  status : TxStatus
deriving DecidableEq, Repr

/-- The CLEAR transaction inserted by the repository `FinishOrder`
(order_repo.go): amount = total, status SUCCESS/FAILED from
`chargeSuccess`. -/
def repoClearTx (w : FinishWrite) : PaymentTransaction :=
  ⟨.CLEAR, w.totalAmount, if w.chargeSuccess then .SUCCESS else .FAILED⟩

/-- The REFUND transaction inserted by the repository `FinishOrder`:
amount = the order's deposit, status SUCCESS/FAILED from
`unholdSuccess`. -/
def repoRefundTx (o : Order) (w : FinishWrite) : PaymentTransaction :=
  ⟨.REFUND, o.deposit.getD 0, if w.unholdSuccess then .SUCCESS else .FAILED⟩

/-- The UPDATE of the orders row performed by the repository `FinishOrder`:
sets finish_time, duration_seconds, total_amount and status. -/
def applyFinishWrite (o : Order) (w : FinishWrite) : Order :=
  { o with
    status := w.finalStatus
    finishTime := some w.finishTime
    durationSeconds := some w.durationSeconds
    currentAmount := some w.totalAmount }

/-- Go `math.Ceil` on an exact quotient. -/
def goCeil (q : ℚ) : Int := ⌈q⌉

structure FinishEnv where
  getOrderErr : Bool
  configsThreshold : Option Int
  chargeOk : Bool
  unholdOk : Bool
  repoWriteOk : Bool
  reloadErr : Bool
  hasCache : Bool
  now : Int
deriving DecidableEq, Repr

inductive FinishErr where
  | repoGetFailed
  | noSuchOrder
  | orderNotActive
  | repoFinishFailed
  | reloadFailed
deriving DecidableEq, Repr

structure FinishEffects where
  chargeCall : Option (String × Int)
  unholdCalls : Nat
  repoWrite : Option FinishWrite
  cacheInvalidations : Nat
  cacheWrites : Nat
deriving DecidableEq, Repr

def FinishEffects.empty : FinishEffects := ⟨none, 0, none, 0, 0⟩

/-- The billing and status block of the service `FinishOrder` (the lets
between the ACTIVE check and the payment calls): duration clamped at 0,
threshold from the configs provider with hardcoded default 5, total 0 for
an incomplete ride and `unlock + ceil(duration/60) * ppm` otherwise,
final status from the charge outcome. -/
def finishComputation (order : Order) (env : FinishEnv) : FinishWrite :=
  let d0 : Int := env.now - order.startTime
  let durationSeconds : Int := if d0 < 0 then 0 else d0
  let incompleteRideThreshold : Int := env.configsThreshold.getD 5
  let ppm : Int := order.pricePerMinute.getD 0
  let unlock : Int := order.priceUnlock.getD 0
  let total : Int :=
    if durationSeconds ≥ incompleteRideThreshold then
      let minutes := goCeil ((durationSeconds : ℚ) / 60)
      unlock + minutes * ppm
    else 0
  let chargeSuccess := env.chargeOk
  let unholdSuccess := chargeSuccess && env.unholdOk
  let finalStatus : OrderStatus :=
    if chargeSuccess then .FINISHED else .PAYMENTFAILED
  ⟨env.now, durationSeconds, total, finalStatus, chargeSuccess,
    unholdSuccess, ""⟩

/-- `FinishOrder` of the order service, applied to the order the repository
returns for the requested id (`order?`, `none` = no row).
`env.configsThreshold` is `some t` when a configs provider is wired and its
`GetConfigs` succeeded with threshold `t`; otherwise the hardcoded default 5
is used.  The result mirrors the Go pair (returned order, error).  The
reloaded row after a successful repository write is
`applyFinishWrite order w`. -/
def FinishOrder (order? : Option Order) (env : FinishEnv) :
    (Option Order × Option FinishErr) × FinishEffects :=
  if env.getOrderErr then ((none, some .repoGetFailed), FinishEffects.empty)
  else match order? with
  | none => ((none, some .noSuchOrder), FinishEffects.empty)
  | some order =>
    if order.status ≠ .ACTIVE then
      ((some order, some .orderNotActive), FinishEffects.empty)
    else
      let w : FinishWrite := finishComputation order env
      let eff : FinishEffects :=
        { chargeCall := some (order.id, w.totalAmount)
          unholdCalls := if w.chargeSuccess then 1 else 0
          repoWrite := some w
          cacheInvalidations := 0
          cacheWrites := 0 }
      if env.repoWriteOk = false then
        ((none, some .repoFinishFailed), eff)
      else
        let eff := { eff with
          cacheInvalidations := if env.hasCache then 1 else 0 }
        if env.reloadErr then ((none, some .reloadFailed), eff)
        else
          let updated := applyFinishWrite order w
          let eff := { eff with
            cacheWrites := if env.hasCache then 1 else 0 }
          ((some updated, none), eff)

/-! ## Helper lemmas -/

lemma int_clamp_eq_max (x : Int) : (if x < 0 then 0 else x) = max 0 x := by
  by_cases h : x < 0 <;> simp [h, max_def] <;> omega

/-! ## Claims -/

/-- Claim C7, counterexample: at `scooter_charge_percent = -1`,
`threshold = 10` the code applies no discount (its guard also requires a
non-negative charge), while the claim's condition
(`charge < threshold ∧ threshold > 0`) would apply it: the outputs
differ. -/
theorem Calculate_claim_counterexample :
    Calculate ⟨100, 0, 0, 1, 1/2, 10, -1, false, false⟩ ≠
      CalculateClaimCond ⟨100, 0, 0, 1, 1/2, 10, -1, false, false⟩ ∧
    (Calculate ⟨100, 0, 0, 1, 1/2, 10, -1, false, false⟩).pricePerMinute
      = 100 ∧
    (CalculateClaimCond
      ⟨100, 0, 0, 1, 1/2, 10, -1, false, false⟩).pricePerMinute = 50 := by
  have h1 : (Calculate
      ⟨100, 0, 0, 1, 1/2, 10, -1, false, false⟩).pricePerMinute = 100 := by
    norm_num [Calculate, goRound, safeFloat]
  have h2 : (CalculateClaimCond
      ⟨100, 0, 0, 1, 1/2, 10, -1, false, false⟩).pricePerMinute = 50 := by
    norm_num [CalculateClaimCond, goRound, safeFloat]
  refine ⟨fun h => ?_, h1, h2⟩
  rw [h, h2] at h1
  exact absurd h1 (by decide)

/-- Claim C7 (amended): the low-charge discount multiplier is applied
exactly when `scooter_charge_percent ≥ 0` AND
`scooter_charge_percent < low_charge_threshold_percent` AND
`low_charge_threshold_percent > 0`; when that condition fails (in
particular at equality) the discount knob has no effect on the output. -/
theorem Calculate_lowCharge_condition (i : PricingInputs) :
    ((0 ≤ i.scooterChargePercent ∧ 0 < i.lowChargeThresholdPercent ∧
        i.scooterChargePercent < i.lowChargeThresholdPercent) →
      (Calculate i).pricePerMinute =
        max 0 (goRound ((i.zonePricePerMinute : ℚ) * safeFloat i.surge 1 *
          safeFloat i.lowChargeDiscount 1))) ∧
    (¬ (0 ≤ i.scooterChargePercent ∧ 0 < i.lowChargeThresholdPercent ∧
        i.scooterChargePercent < i.lowChargeThresholdPercent) →
      ∀ d : ℚ, Calculate i = Calculate { i with lowChargeDiscount := d }) := by
  constructor
  · intro h
    have hcond : i.scooterChargePercent ≥ 0 ∧
        i.lowChargeThresholdPercent > 0 ∧
        i.scooterChargePercent < i.lowChargeThresholdPercent := h
    simp only [Calculate, if_pos hcond]
    rw [int_clamp_eq_max]
  · intro h d
    have hcond : ¬ (i.scooterChargePercent ≥ 0 ∧
        i.lowChargeThresholdPercent > 0 ∧
        i.scooterChargePercent < i.lowChargeThresholdPercent) := h
    simp only [Calculate, if_neg hcond]

/-- Claim C7 witness: the amended condition holds at charge 10,
threshold 30, discount 0.5, surge 1.2, base 10 and then the per-minute
price is 6 (spec scenario 2). -/
theorem Calculate_lowCharge_condition_witness :
    (Calculate ⟨10, 20, 200, 12/10, 1/2, 30, 10, true, true⟩).pricePerMinute
      = max 0 (goRound ((10 : ℚ) * safeFloat (12/10) 1 * safeFloat (1/2) 1))
    ∧ (Calculate
        ⟨10, 20, 200, 12/10, 1/2, 30, 10, true, true⟩).pricePerMinute = 6 :=
  ⟨(Calculate_lowCharge_condition
      ⟨10, 20, 200, 12/10, 1/2, 30, 10, true, true⟩).1
    ⟨by decide, by decide, by decide⟩,
   by norm_num [Calculate, goRound, safeFloat]⟩

/-- Claim C9: every offer newly built by `CreateOffer` (i.e. produced on a
run where the idempotent lookup found nothing) has
`expires_at = created_at + 10 minutes`, hence `expires_at > created_at`. -/
theorem CreateOffer_expiry_ttl (req : CreateOfferRequest) (env : OfferEnv)
    (offer : Offer) (hEx : env.existing = none)
    (h : CreateOffer req env = .ok offer) :
    offer.expiresAt = offer.createdAt + 600 ∧
    offer.createdAt < offer.expiresAt := by
  unfold CreateOffer at h
  repeat' split at h
  all_goals simp_all
  all_goals (subst h; exact ⟨rfl, show env.now < env.now + 600 by omega⟩)

/-- Claim C9 witness: a concrete successful creation yields
`expiresAt = createdAt + 600` with `createdAt = 500`. -/
theorem CreateOffer_expiry_ttl_witness :
    (Offer.mk "OF1" "U1" "S1" "Z1" 10 20 100 500 1100).expiresAt =
      (Offer.mk "OF1" "U1" "S1" "Z1" 10 20 100 500 1100).createdAt + 600 ∧
    (Offer.mk "OF1" "U1" "S1" "Z1" 10 20 100 500 1100).createdAt <
      (Offer.mk "OF1" "U1" "S1" "Z1" 10 20 100 500 1100).expiresAt :=
  CreateOffer_expiry_ttl ⟨"U1", "S1"⟩
    ⟨false, none, false, some ⟨"S1", "Z1", 80⟩, some ⟨⟨"Z1", 10, 20, 100⟩, 1000⟩,
      0, none, none, 0, none, ⟨1, 1, 0, 0⟩, 500, "OF1", false, false⟩
    (Offer.mk "OF1" "U1" "S1" "Z1" 10 20 100 500 1100) rfl
    (by
      rw [CreateOffer, if_neg (by decide)]
      norm_num [getZoneWithCache, Calculate, goRound, safeFloat])

/-- Claim C10: when the upstream 200 body omits keys, `GetConfigs` fills
surge = 1.0, low_charge_discount = 1.0, low_charge_threshold_percent = 0,
incomplete_ride_threshold_seconds = 0 — none of which equals the
corresponding documented cold-start default {1.2, 0.7, 28, 5}. -/
theorem GetConfigs_missing_key_fallbacks (m : ConfigsJson) :
    (m.surge = none → (GetConfigs m).surge = 1) ∧
    (m.lowChargeDiscount = none → (GetConfigs m).lowChargeDiscount = 1) ∧
    (m.lowChargeThresholdPercent = none →
      (GetConfigs m).lowChargeThresholdPercent = 0) ∧
    (m.incompleteRideThresholdSeconds = none →
      (GetConfigs m).incompleteRideThresholdSeconds = 0) ∧
    (GetConfigs ⟨none, none, none, none⟩).surge ≠ getDefaultConfigs.surge ∧
    (GetConfigs ⟨none, none, none, none⟩).lowChargeDiscount ≠
      getDefaultConfigs.lowChargeDiscount ∧
    (GetConfigs ⟨none, none, none, none⟩).lowChargeThresholdPercent ≠
      getDefaultConfigs.lowChargeThresholdPercent ∧
    (GetConfigs ⟨none, none, none, none⟩).incompleteRideThresholdSeconds ≠
      getDefaultConfigs.incompleteRideThresholdSeconds := by
  obtain ⟨s, d, t, r⟩ := m
  refine ⟨fun h => ?_, fun h => ?_, fun h => ?_, fun h => ?_,
    by norm_num [GetConfigs, getDefaultConfigs],
    by norm_num [GetConfigs, getDefaultConfigs],
    by norm_num [GetConfigs, getDefaultConfigs],
    by norm_num [GetConfigs, getDefaultConfigs]⟩
  · subst h; cases d <;> cases t <;> cases r <;> simp [GetConfigs]
  · subst h; cases s <;> cases t <;> cases r <;> simp [GetConfigs]
  · subst h; cases s <;> cases d <;> cases r <;> simp [GetConfigs]
  · subst h; cases s <;> cases d <;> cases t <;> simp [GetConfigs]

lemma clamp_total_eq (d0 t unlock ppm : Int) :
    (if (if d0 < 0 then 0 else d0) ≥ t then
      unlock + goCeil (((if d0 < 0 then 0 else d0 : Int) : ℚ) / 60) * ppm
    else 0) =
    (if max 0 d0 < t then 0
    else unlock + goCeil (((max 0 d0 : Int) : ℚ) / 60) * ppm) := by
  rw [int_clamp_eq_max]
  by_cases h : max 0 d0 < t
  · rw [if_neg (not_le.mpr h), if_pos h]
  · rw [if_pos (not_lt.mp h), if_neg h]

lemma finishComputation_chargeSuccess (order : Order) (env : FinishEnv) :
    (finishComputation order env).chargeSuccess = env.chargeOk := rfl

lemma finishComputation_finalStatus (order : Order) (env : FinishEnv) :
    (finishComputation order env).finalStatus =
      (if env.chargeOk then OrderStatus.FINISHED else .PAYMENTFAILED) := rfl

lemma finishComputation_durationSeconds (order : Order) (env : FinishEnv) :
    (finishComputation order env).durationSeconds =
      max 0 (env.now - order.startTime) :=
  int_clamp_eq_max _

lemma finishComputation_totalAmount (order : Order) (env : FinishEnv) :
    (finishComputation order env).totalAmount =
      (if max 0 (env.now - order.startTime) <
          env.configsThreshold.getD 5 then 0
      else order.priceUnlock.getD 0 +
        goCeil (((max 0 (env.now - order.startTime) : Int) : ℚ) / 60) *
          order.pricePerMinute.getD 0) :=
  clamp_total_eq _ _ _ _

lemma FinishOrder_notActive_eq (order : Order) (env : FinishEnv)
    (hg : env.getOrderErr = false) (hs : order.status ≠ .ACTIVE) :
    FinishOrder (some order) env =
      ((some order, some .orderNotActive), FinishEffects.empty) := by
  simp [FinishOrder, hg, hs]

lemma FinishOrder_active_effects (order : Order) (env : FinishEnv)
    (hA : order.status = .ACTIVE) (hg : env.getOrderErr = false) :
    (FinishOrder (some order) env).2.repoWrite =
      some (finishComputation order env) ∧
    (FinishOrder (some order) env).2.chargeCall =
      some (order.id, (finishComputation order env).totalAmount) ∧
    (FinishOrder (some order) env).2.unholdCalls =
      (if env.chargeOk then 1 else 0) := by
  simp only [FinishOrder, hg, hA, ne_eq, reduceCtorEq, not_false_eq_true,
    Bool.false_eq_true, if_false, if_true, ite_true, ite_false,
    not_true_eq_false, finishComputation_chargeSuccess]
  split_ifs <;> simp

lemma FinishOrder_success_not_active (order : Order) (env : FinishEnv)
    (u : Order) (h : (FinishOrder (some order) env).1 = (some u, none)) :
    u.status ≠ .ACTIVE := by
  by_cases hg : env.getOrderErr = true
  · simp [FinishOrder, hg] at h
  · rw [Bool.not_eq_true] at hg
    by_cases hs : order.status = .ACTIVE
    · simp only [FinishOrder, hg, hs, ne_eq, reduceCtorEq,
        not_false_eq_true, Bool.false_eq_true, if_false, if_true, ite_true,
        ite_false, not_true_eq_false] at h
      split_ifs at h <;> simp at h
      all_goals
        (intro hc; rw [← h] at hc;
         rw [show (applyFinishWrite order
               (finishComputation order env)).status =
             (finishComputation order env).finalStatus from rfl,
           finishComputation_finalStatus] at hc;
         rcases henv : env.chargeOk with _ | _ <;> rw [henv] at hc <;>
           simp at hc)
    · rw [FinishOrder_notActive_eq order env hg hs] at h
      simp at h

/-- Claim C1: on an ACTIVE order, `FinishOrder` bills
`duration = max(0, now - start_time)` whole seconds; total 0 when the
duration is strictly below the incomplete-ride threshold, otherwise
`price_unlock + ceil(duration / 60) * price_per_minute` from the order's
snapshotted prices — this amount is both charged and written to the
repository together with the duration. -/
theorem FinishOrder_billing (order : Order) (env : FinishEnv)
    (hA : order.status = .ACTIVE) (hg : env.getOrderErr = false) :
    ∃ w : FinishWrite,
      (FinishOrder (some order) env).2.repoWrite = some w ∧
      w.durationSeconds = max 0 (env.now - order.startTime) ∧
      w.totalAmount =
        (if max 0 (env.now - order.startTime) <
            env.configsThreshold.getD 5 then 0
        else order.priceUnlock.getD 0 +
          goCeil (((max 0 (env.now - order.startTime) : Int) : ℚ) / 60) *
            order.pricePerMinute.getD 0) ∧
      (FinishOrder (some order) env).2.chargeCall =
        some (order.id, w.totalAmount) := by
  obtain ⟨h1, h2, h3⟩ := FinishOrder_active_effects order env hA hg
  exact ⟨finishComputation order env, h1,
    finishComputation_durationSeconds order env,
    finishComputation_totalAmount order env, h2⟩

/-- Claim C1 witness: a 120-second ride at unlock 20, per-minute 10,
threshold 5 charges and writes total 40 with duration 120
(spec scenario 4). -/
theorem FinishOrder_billing_witness :
    (FinishOrder
      (some ⟨"O1", "F1", "U1", "S1", .ACTIVE, 0, none, none, some 10,
        some 20, some 100, some 20⟩)
      ⟨false, some 5, true, true, true, false, true, 120⟩).2.chargeCall =
      some ("O1", 40) := by
  obtain ⟨w, hw, hd, ht, hc⟩ := FinishOrder_billing
    ⟨"O1", "F1", "U1", "S1", .ACTIVE, 0, none, none, some 10, some 20,
      some 100, some 20⟩
    ⟨false, some 5, true, true, true, false, true, 120⟩ rfl rfl
  rw [hc, ht]
  norm_num [goCeil]

/-- Claim C4: `FinishOrder` on a non-ACTIVE order returns that order with
the order_not_active error and performs no side effects (no payment call,
no repository write, no cache mutation), and a second `FinishOrder` after
a successful one returns the same terminal order with order_not_active and
no side effects. -/
theorem FinishOrder_notActive_idempotent :
    (∀ order : Order, ∀ env : FinishEnv, env.getOrderErr = false →
      order.status ≠ .ACTIVE →
      FinishOrder (some order) env =
        ((some order, some .orderNotActive), FinishEffects.empty)) ∧
    (∀ order : Order, ∀ env : FinishEnv, ∀ u : Order,
      (FinishOrder (some order) env).1 = (some u, none) →
      ∀ env2 : FinishEnv, env2.getOrderErr = false →
      FinishOrder (some u) env2 =
        ((some u, some .orderNotActive), FinishEffects.empty)) :=
  ⟨fun order env hg hs => FinishOrder_notActive_eq order env hg hs,
   fun order env u h env2 hg2 =>
    FinishOrder_notActive_eq u env2 hg2
      (FinishOrder_success_not_active order env u h)⟩

/-- Claim C4 witness: finishing an already-FINISHED order returns it with
order_not_active and empty effects. -/
theorem FinishOrder_notActive_idempotent_witness :
    FinishOrder
      (some ⟨"O1", "F1", "U1", "S1", .FINISHED, 0, some 120, some 120,
        some 10, some 20, some 100, some 40⟩)
      ⟨false, some 5, true, true, true, false, true, 200⟩ =
      ((some ⟨"O1", "F1", "U1", "S1", .FINISHED, 0, some 120, some 120,
        some 10, some 20, some 100, some 40⟩,
        some .orderNotActive), FinishEffects.empty) :=
  FinishOrder_notActive_idempotent.1
    ⟨"O1", "F1", "U1", "S1", .FINISHED, 0, some 120, some 120, some 10,
      some 20, some 100, some 40⟩
    ⟨false, some 5, true, true, true, false, true, 200⟩ rfl (by decide)

/-- Claim C5: on the active path, unhold is called exactly when the charge
succeeded; the written final status is FINISHED exactly when the charge
succeeded and PAYMENT_FAILED exactly when it failed; on charge failure the
write carries chargeSuccess = false, so the repository's CLEAR transaction
is recorded with status FAILED, and unhold is not called. -/
theorem FinishOrder_charge_unhold (order : Order) (env : FinishEnv)
    (hA : order.status = .ACTIVE) (hg : env.getOrderErr = false) :
    ((FinishOrder (some order) env).2.unholdCalls = 1 ↔
      env.chargeOk = true) ∧
    ∃ w : FinishWrite,
      (FinishOrder (some order) env).2.repoWrite = some w ∧
      (w.finalStatus = .FINISHED ↔ env.chargeOk = true) ∧
      (w.finalStatus = .PAYMENTFAILED ↔ env.chargeOk = false) ∧
      (env.chargeOk = false →
        w.chargeSuccess = false ∧ (repoClearTx w).status = .FAILED ∧
        (FinishOrder (some order) env).2.unholdCalls = 0) := by
  obtain ⟨h1, h2, h3⟩ := FinishOrder_active_effects order env hA hg
  rw [h3]
  refine ⟨?_, finishComputation order env, h1, ?_, ?_, fun hc => ?_⟩
  · rcases hcase : env.chargeOk with _ | _ <;> simp [hcase]
  · rw [finishComputation_finalStatus]
    rcases hcase : env.chargeOk with _ | _ <;> simp [hcase]
  · rw [finishComputation_finalStatus]
    rcases hcase : env.chargeOk with _ | _ <;> simp [hcase]
  · rw [finishComputation_chargeSuccess, hc]
    refine ⟨rfl, ?_, by simp [hc]⟩
    simp [repoClearTx, finishComputation_chargeSuccess, hc]

/-- Claim C5 witness: with the charge failing on a 120-second ride, the
written status is PAYMENT_FAILED, the CLEAR transaction is FAILED, and
unhold is not called. -/
theorem FinishOrder_charge_unhold_witness :
    ∃ w : FinishWrite,
      (FinishOrder
        (some ⟨"O1", "F1", "U1", "S1", .ACTIVE, 0, none, none, some 10,
          some 20, some 100, some 20⟩)
        ⟨false, some 5, false, true, true, false, true, 120⟩).2.repoWrite =
        some w ∧
      w.finalStatus = .PAYMENTFAILED ∧ (repoClearTx w).status = .FAILED ∧
      (FinishOrder
        (some ⟨"O1", "F1", "U1", "S1", .ACTIVE, 0, none, none, some 10,
          some 20, some 100, some 20⟩)
        ⟨false, some 5, false, true, true, false, true, 120⟩).2.unholdCalls
          = 0 := by
  obtain ⟨hu, w, hw, hf, hp, himp⟩ := FinishOrder_charge_unhold
    ⟨"O1", "F1", "U1", "S1", .ACTIVE, 0, none, none, some 10, some 20,
      some 100, some 20⟩
    ⟨false, some 5, false, true, true, false, true, 120⟩ rfl rfl
  obtain ⟨h1, h2, h3⟩ := himp rfl
  exact ⟨w, hw, hp.mpr rfl, h2, h3⟩

lemma check_ok_lookup (req : CreateOrderRequest) (env : CreateEnv)
    (s : OrdersState) (o : Order)
    (h : CreateOrder_check req env s = .early (.ok o)) :
    lookupKey req.orderId s.orders = some o := by
  unfold CreateOrder_check at h
  repeat' split at h
  all_goals simp_all

lemma check_proceed (req : CreateOrderRequest) (env : CreateEnv)
    (s : OrdersState) (offer : Offer)
    (h : CreateOrder_check req env s = .proceed offer) :
    lookupKey req.orderId s.orders = none ∧ req.offerId ∉ s.used := by
  unfold CreateOrder_check at h
  repeat' split at h
  all_goals simp_all

lemma check_of_existing (req : CreateOrderRequest) (env : CreateEnv)
    (s : OrdersState) (o : Order) (h1 : req.orderId ≠ "")
    (h2 : env.getOrderErr = false)
    (h3 : lookupKey req.orderId s.orders = some o) :
    CreateOrder_check req env s = .early (.ok o) := by
  simp [CreateOrder_check, h1, h2, h3]

lemma CreateOrder_existing (req : CreateOrderRequest) (env : CreateEnv)
    (s : OrdersState) (o : Order) (h1 : req.orderId ≠ "")
    (h2 : env.getOrderErr = false)
    (h3 : lookupKey req.orderId s.orders = some o) :
    CreateOrder req env s = (.ok o, s, Effects.empty) := by
  simp [CreateOrder, check_of_existing req env s o h1 h2 h3]

lemma commit_facts (req : CreateOrderRequest) (env : CreateEnv)
    (s : OrdersState) (offer : Offer) (r : Except CreateErr Order)
    (s2 : OrdersState) (eff : Effects)
    (h : CreateOrder_commit req env s offer = (r, s2, eff)) :
    eff.holdCalls = 1 ∧
    s2.used = req.offerId :: s.used ∧
    (eff.rowsInserted = 0 ∨ eff.rowsInserted = 1) ∧
    (eff.rowsInserted = 0 → s2.orders = s.orders) ∧
    (eff.rowsInserted = 1 →
      (lookupKey req.orderId s2.orders).isSome = true) ∧
    (∀ o, r = .ok o →
      lookupKey req.orderId s2.orders = some o ∧
        eff.rowsInserted = 1) := by
  unfold CreateOrder_commit at h
  repeat' split at h
  all_goals
    (simp only [Prod.mk.injEq] at h
     obtain ⟨rfl, rfl, rfl⟩ := h
     refine ⟨rfl, rfl, ?_, fun hr => ?_, fun hr => ?_, fun o ho => ?_⟩ <;>
       simp_all [Effects.empty, lookupKey])

/-- One `CreateOrder` invocation: the hold-call budget decreases with the
consumption of the offer's used flag; the row-insert budget decreases with
the appearance of the order row; an ok result is looked up in the resulting
store; no insert means the order table is untouched; an existing row means
the whole state is untouched; an ok result from a state without the row
means exactly one insert. -/
lemma CreateOrder_step_facts (req : CreateOrderRequest) (env : CreateEnv)
    (s : OrdersState) (r : Except CreateErr Order) (s2 : OrdersState)
    (eff : Effects) (hcre : CreateOrder req env s = (r, s2, eff)) :
    (eff.holdCalls + (if req.offerId ∈ s2.used then 0 else 1) ≤
      (if req.offerId ∈ s.used then 0 else 1)) ∧
    (eff.rowsInserted +
        (if (lookupKey req.orderId s2.orders).isSome then 0 else 1) ≤
      (if (lookupKey req.orderId s.orders).isSome then 0 else 1)) ∧
    (∀ o, r = .ok o → lookupKey req.orderId s2.orders = some o) ∧
    (eff.rowsInserted = 0 → s2.orders = s.orders) ∧
    (∀ o, lookupKey req.orderId s.orders = some o → s2 = s) ∧
    (∀ o, r = .ok o →
      (lookupKey req.orderId s.orders).isSome = true ∨
        eff.rowsInserted = 1) := by
  rcases hck : CreateOrder_check req env s with r0 | offer
  · simp only [CreateOrder, hck] at hcre
    simp only [Prod.mk.injEq] at hcre
    obtain ⟨rfl, rfl, rfl⟩ := hcre
    refine ⟨by simp [Effects.empty], by simp [Effects.empty],
      fun o ho => ?_, fun hr => rfl, fun o hsome => rfl, fun o ho => ?_⟩
    · exact check_ok_lookup req env s o (ho ▸ hck)
    · rw [check_ok_lookup req env s o (ho ▸ hck)]
      exact Or.inl rfl
  · simp only [CreateOrder, hck] at hcre
    obtain ⟨hnone, hnotused⟩ := check_proceed req env s offer hck
    obtain ⟨ca, cb, cc, cd, ce, cfk⟩ :=
      commit_facts req env s offer r s2 eff hcre
    refine ⟨?_, ?_, fun o ho => (cfk o ho).1, cd, fun o hsome => ?_,
      fun o ho => Or.inr (cfk o ho).2⟩
    · rw [ca, cb]
      simp [hnotused, List.mem_cons]
    · rcases cc with h0 | h1
      · rw [h0, cd h0, hnone]
        simp
      · rw [h1, ce h1, hnone]
        simp
    · rw [hnone] at hsome
      cases hsome

lemma trace_holds_cap (req : CreateOrderRequest) (envs : List CreateEnv)
    (s : OrdersState) :
    traceHolds (createTrace req envs s).1 +
      (if req.offerId ∈ ((createTrace req envs s).2).used then 0 else 1) ≤
      (if req.offerId ∈ s.used then 0 else 1) := by
  induction envs generalizing s with
  | nil => simp [createTrace, traceHolds]
  | cons env envs ih =>
    rcases hcre : CreateOrder req env s with ⟨r, s1, eff⟩
    have hf := (CreateOrder_step_facts req env s r s1 eff hcre).1
    have hrest := ih s1
    simp only [createTrace, hcre, traceHolds, List.map_cons, List.sum_cons]
      at hrest ⊢
    omega

lemma trace_rows_cap (req : CreateOrderRequest) (envs : List CreateEnv)
    (s : OrdersState) :
    traceRows (createTrace req envs s).1 +
      (if (lookupKey req.orderId
          ((createTrace req envs s).2).orders).isSome then 0 else 1) ≤
      (if (lookupKey req.orderId s.orders).isSome then 0 else 1) := by
  induction envs generalizing s with
  | nil => simp [createTrace, traceRows]
  | cons env envs ih =>
    rcases hcre : CreateOrder req env s with ⟨r, s1, eff⟩
    have hf := (CreateOrder_step_facts req env s r s1 eff hcre).2.1
    have hrest := ih s1
    simp only [createTrace, hcre, traceRows, List.map_cons, List.sum_cons]
      at hrest ⊢
    omega

lemma trace_state_preserved (req : CreateOrderRequest)
    (envs : List CreateEnv) (s : OrdersState) (o : Order)
    (h : lookupKey req.orderId s.orders = some o) :
    lookupKey req.orderId ((createTrace req envs s).2).orders = some o := by
  induction envs generalizing s with
  | nil => simpa [createTrace]
  | cons env envs ih =>
    rcases hcre : CreateOrder req env s with ⟨r, s1, eff⟩
    have hs1 : s1 = s :=
      (CreateOrder_step_facts req env s r s1 eff hcre).2.2.2.2.1 o h
    subst hs1
    simp only [createTrace, hcre]
    exact ih _ h

lemma trace_ok_lookup (req : CreateOrderRequest) (envs : List CreateEnv)
    (s : OrdersState) (p : Except CreateErr Order × Effects)
    (hp : p ∈ (createTrace req envs s).1) (o : Order) (ho : p.1 = .ok o) :
    lookupKey req.orderId ((createTrace req envs s).2).orders = some o := by
  induction envs generalizing s with
  | nil => simp [createTrace] at hp
  | cons env envs ih =>
    rcases hcre : CreateOrder req env s with ⟨r, s1, eff⟩
    simp only [createTrace, hcre, List.mem_cons] at hp ⊢
    rcases hp with rfl | hp
    · have hl : lookupKey req.orderId s1.orders = some o :=
        (CreateOrder_step_facts req env s r s1 eff hcre).2.2.1 o ho
      exact trace_state_preserved req envs s1 o hl
    · exact ih s1 hp

lemma trace_ok_rows (req : CreateOrderRequest) (envs : List CreateEnv)
    (s : OrdersState) (hnone : lookupKey req.orderId s.orders = none)
    (hok : ∃ p ∈ (createTrace req envs s).1, ∃ o, p.1 = .ok o) :
    1 ≤ traceRows (createTrace req envs s).1 := by
  induction envs generalizing s with
  | nil => simp [createTrace] at hok
  | cons env envs ih =>
    rcases hcre : CreateOrder req env s with ⟨r, s1, eff⟩
    obtain ⟨p, hp, o, ho⟩ := hok
    simp only [createTrace, hcre, List.mem_cons] at hp ⊢
    simp only [traceRows, List.map_cons, List.sum_cons]
    rcases hp with rfl | hp
    · rcases (CreateOrder_step_facts req env s r s1 eff
          hcre).2.2.2.2.2 o ho with hsome | h1
      · rw [hnone] at hsome; simp at hsome
      · simp only at ho h1
        omega
    · by_cases hz : eff.rowsInserted = 0
      · have horders :=
          (CreateOrder_step_facts req env s r s1 eff hcre).2.2.2.1 hz
        have hrest := ih s1 (by rw [horders]; exact hnone) ⟨p, hp, o, ho⟩
        simp only [traceRows] at hrest
        omega
      · omega

/-- Claim C2: `CreateOrder` is idempotent in the client-supplied order id.
If the lookup finds an existing order it is returned unchanged with no
effects and no state change; across any sequence of calls with the same
request the payments hold is invoked at most once; starting without the
row, at most one row is created — exactly one as soon as any call
succeeds — and every successful call returns the order stored under that
id in the final state. -/
theorem CreateOrder_idempotent_by_id (req : CreateOrderRequest)
    (s0 : OrdersState) (envs : List CreateEnv) :
    (∀ env : CreateEnv, ∀ o : Order, req.orderId ≠ "" →
      env.getOrderErr = false →
      lookupKey req.orderId s0.orders = some o →
      CreateOrder req env s0 = (.ok o, s0, Effects.empty)) ∧
    traceHolds (createTrace req envs s0).1 ≤ 1 ∧
    (lookupKey req.orderId s0.orders = none →
      traceRows (createTrace req envs s0).1 ≤ 1) ∧
    (lookupKey req.orderId s0.orders = none →
      (∃ p ∈ (createTrace req envs s0).1, ∃ o, p.1 = .ok o) →
      traceRows (createTrace req envs s0).1 = 1) ∧
    (∀ p ∈ (createTrace req envs s0).1, ∀ o : Order, p.1 = .ok o →
      lookupKey req.orderId ((createTrace req envs s0).2).orders =
        some o) := by
  have hholds := trace_holds_cap req envs s0
  have hrows := trace_rows_cap req envs s0
  have hcap : (if req.offerId ∈ s0.used then (0 : Nat) else 1) ≤ 1 := by
    split_ifs <;> omega
  refine ⟨fun env o h1 h2 h3 => CreateOrder_existing req env s0 o h1 h2 h3,
    by omega, fun hnone => ?_, fun hnone hok => ?_,
    fun p hp o ho => trace_ok_lookup req envs s0 p hp o ho⟩
  · rw [hnone] at hrows
    simp only [Option.isSome_none, Bool.false_eq_true, if_false] at hrows
    omega
  · have hge := trace_ok_rows req envs s0 hnone hok
    rw [hnone] at hrows
    simp only [Option.isSome_none, Bool.false_eq_true, if_false] at hrows
    omega

/-- Claim C2 witness: with offer F1 consumable, two identical calls with
order id O1 insert exactly one row, hold at most once, and with the row
already present a call returns it unchanged with empty effects. -/
theorem CreateOrder_idempotent_by_id_witness :
    traceRows (createTrace ⟨"O1", "F1", "U1"⟩
      [⟨false, false, false, false, true, "tx1", false, false, true, 100⟩,
       ⟨false, false, false, false, true, "tx1", false, false, true, 100⟩]
      ⟨[], [("F1", ⟨"F1", "U1", "S1", "Z1", 10, 20, 100, 0, 600⟩)], [],
        []⟩).1 = 1 ∧
    traceHolds (createTrace ⟨"O1", "F1", "U1"⟩
      [⟨false, false, false, false, true, "tx1", false, false, true, 100⟩,
       ⟨false, false, false, false, true, "tx1", false, false, true, 100⟩]
      ⟨[], [("F1", ⟨"F1", "U1", "S1", "Z1", 10, 20, 100, 0, 600⟩)], [],
        []⟩).1 ≤ 1 ∧
    CreateOrder ⟨"O1", "F1", "U1"⟩
      ⟨false, false, false, false, true, "tx1", false, false, true, 100⟩
      ⟨[("O1", ⟨"O1", "F1", "U1", "S1", .ACTIVE, 100, none, none, some 10,
        some 20, some 100, some 20⟩)], [], [], []⟩ =
      (.ok ⟨"O1", "F1", "U1", "S1", .ACTIVE, 100, none, none, some 10,
        some 20, some 100, some 20⟩,
       ⟨[("O1", ⟨"O1", "F1", "U1", "S1", .ACTIVE, 100, none, none, some 10,
        some 20, some 100, some 20⟩)], [], [], []⟩, Effects.empty) := by
  refine ⟨?_, (CreateOrder_idempotent_by_id ⟨"O1", "F1", "U1"⟩
      ⟨[], [("F1", ⟨"F1", "U1", "S1", "Z1", 10, 20, 100, 0, 600⟩)], [],
        []⟩
      [⟨false, false, false, false, true, "tx1", false, false, true, 100⟩,
       ⟨false, false, false, false, true, "tx1", false, false, true,
        100⟩]).2.1,
    (CreateOrder_idempotent_by_id ⟨"O1", "F1", "U1"⟩
      ⟨[("O1", ⟨"O1", "F1", "U1", "S1", .ACTIVE, 100, none, none, some 10,
        some 20, some 100, some 20⟩)], [], [], []⟩ []).1
      ⟨false, false, false, false, true, "tx1", false, false, true, 100⟩
      ⟨"O1", "F1", "U1", "S1", .ACTIVE, 100, none, none, some 10, some 20,
        some 100, some 20⟩ (by decide) rfl rfl⟩
  refine (CreateOrder_idempotent_by_id ⟨"O1", "F1", "U1"⟩
      ⟨[], [("F1", ⟨"F1", "U1", "S1", "Z1", 10, 20, 100, 0, 600⟩)], [],
        []⟩
      [⟨false, false, false, false, true, "tx1", false, false, true, 100⟩,
       ⟨false, false, false, false, true, "tx1", false, false, true,
        100⟩]).2.2.2.1 rfl
    ⟨(Except.ok ⟨"O1", "F1", "U1", "S1", .ACTIVE, 100, none, none, some 10,
        some 20, some 100, some 20⟩, ⟨1, 0, 1, 1⟩), ?_, _, rfl⟩
  rw [show (createTrace (⟨"O1", "F1", "U1"⟩ : CreateOrderRequest)
      [⟨false, false, false, false, true, "tx1", false, false, true, 100⟩,
       ⟨false, false, false, false, true, "tx1", false, false, true, 100⟩]
      ⟨[], [("F1", ⟨"F1", "U1", "S1", "Z1", 10, 20, 100, 0, 600⟩)], [],
        []⟩).1 =
    [(Except.ok ⟨"O1", "F1", "U1", "S1", .ACTIVE, 100, none, none, some 10,
        some 20, some 100, some 20⟩, ⟨1, 0, 1, 1⟩),
     (Except.ok ⟨"O1", "F1", "U1", "S1", .ACTIVE, 100, none, none, some 10,
        some 20, some 100, some 20⟩, ⟨0, 0, 0, 0⟩)] from rfl]
  exact List.mem_cons_self _ _

/-- Claim C6: when the repository insert fails after a successful hold,
`CreateOrder` invokes the compensating unhold exactly once for that order,
returns an error (no order), inserts no row, and the outcome of the
compensation call does not change the returned error (the code discards
it). -/
theorem CreateOrder_compensates_on_db_error (req : CreateOrderRequest)
    (env : CreateEnv) (s : OrdersState) (offer : Offer)
    (h1 : req.orderId ≠ "") (h2 : env.getOrderErr = false)
    (h3 : lookupKey req.orderId s.orders = none)
    (h4 : env.getOfferErr = false)
    (h5 : lookupKey req.offerId s.offers = some offer)
    (h6 : ¬ env.now > offer.expiresAt) (h7 : offer.userId = req.userId)
    (h8 : env.markErr = false) (h9 : req.offerId ∉ s.used)
    (h10 : env.holdTransportErr = false) (h11 : env.holdOk = true)
    (h12 : env.dbErr = true) :
    (CreateOrder req env s).1 = .error .dbFailed ∧
    (CreateOrder req env s).2.2.unholdCalls = 1 ∧
    (CreateOrder req env s).2.2.holdCalls = 1 ∧
    (CreateOrder req env s).2.2.rowsInserted = 0 ∧
    (∀ b : Bool, CreateOrder req { env with unholdErr := b } s =
      CreateOrder req env s) := by
  have hck : CreateOrder_check req env s = .proceed offer := by
    simp [CreateOrder_check, h1, h2, h3, h4, h5, h6, h7, h8, h9]
  have hck2 : ∀ b : Bool,
      CreateOrder_check req { env with unholdErr := b } s =
        .proceed offer := fun b => by
    simp [CreateOrder_check, h1, h2, h3, h4, h5, h6, h7, h8, h9]
  refine ⟨?_, ?_, ?_, ?_, fun b => ?_⟩
  · simp [CreateOrder, hck, CreateOrder_commit, h10, h11, h12,
      Effects.empty]
  · simp [CreateOrder, hck, CreateOrder_commit, h10, h11, h12,
      Effects.empty]
  · simp [CreateOrder, hck, CreateOrder_commit, h10, h11, h12,
      Effects.empty]
  · simp [CreateOrder, hck, CreateOrder_commit, h10, h11, h12,
      Effects.empty]
  · simp [CreateOrder, hck, hck2, CreateOrder_commit]

/-- Claim C6 witness: a concrete db failure after a successful hold yields
the dbFailed error with one hold and one unhold, no row, and the same
result whether or not the compensating unhold itself fails. -/
theorem CreateOrder_compensates_on_db_error_witness :
    (CreateOrder ⟨"O1", "F1", "U1"⟩
      ⟨false, false, false, false, true, "tx1", true, false, true, 100⟩
      ⟨[], [("F1", ⟨"F1", "U1", "S1", "Z1", 10, 20, 100, 0, 600⟩)], [],
        []⟩).1 = .error .dbFailed ∧
    (CreateOrder ⟨"O1", "F1", "U1"⟩
      ⟨false, false, false, false, true, "tx1", true, false, true, 100⟩
      ⟨[], [("F1", ⟨"F1", "U1", "S1", "Z1", 10, 20, 100, 0, 600⟩)], [],
        []⟩).2.2.unholdCalls = 1 ∧
    CreateOrder ⟨"O1", "F1", "U1"⟩
      ⟨false, false, false, false, true, "tx1", true, true, true, 100⟩
      ⟨[], [("F1", ⟨"F1", "U1", "S1", "Z1", 10, 20, 100, 0, 600⟩)], [],
        []⟩ =
    CreateOrder ⟨"O1", "F1", "U1"⟩
      ⟨false, false, false, false, true, "tx1", true, false, true, 100⟩
      ⟨[], [("F1", ⟨"F1", "U1", "S1", "Z1", 10, 20, 100, 0, 600⟩)], [],
        []⟩ := by
  obtain ⟨w1, w2, w3, w4, w5⟩ := CreateOrder_compensates_on_db_error
    ⟨"O1", "F1", "U1"⟩
    ⟨false, false, false, false, true, "tx1", true, false, true, 100⟩
    ⟨[], [("F1", ⟨"F1", "U1", "S1", "Z1", 10, 20, 100, 0, 600⟩)], [], []⟩
    ⟨"F1", "U1", "S1", "Z1", 10, 20, 100, 0, 600⟩
    (by decide) rfl rfl rfl rfl (by decide) rfl rfl (by decide) rfl rfl
    rfl
  exact ⟨w1, w2, w5 true⟩

lemma markOfferAsUsed_of_used (s : RedisState) (offerID : String) (v : Int)
    (h : lookupKey offerID s.used = some v) :
    MarkOfferAsUsed s offerID = (false, s) := by
  simp [MarkOfferAsUsed, h]

lemma markOfferAsUsed_of_unused (s : RedisState) (offerID : String)
    (h : lookupKey offerID s.used = none) :
    (MarkOfferAsUsed s offerID).1 = true ∧
    lookupKey offerID ((MarkOfferAsUsed s offerID).2).used =
      some (if ((lookupKey offerID s.offerTtl).getD (-2)) ≤ 0 then 300
        else (lookupKey offerID s.offerTtl).getD (-2)) := by
  simp [MarkOfferAsUsed, h, lookupKey]

lemma markTrace_of_used (offerID : String) (n : Nat) (s : RedisState)
    (v : Int) (h : lookupKey offerID s.used = some v) :
    markTrace offerID n s = (List.replicate n false, s) := by
  induction n with
  | zero => simp [markTrace]
  | succ m ih =>
    simp [markTrace, markOfferAsUsed_of_used s offerID v h, ih,
      List.replicate_succ]

/-- Claim C3: starting from a store where the used sentinel for an offer id
is absent, a sequence of `n ≥ 1` `MarkOfferAsUsed` calls returns `true` on
the first call and `false` on every subsequent call; moreover a single call
never clears an already-set sentinel (the used set is monotone).  Key
expiry (the sentinel's TTL) is outside the model; the spec treats it only
as garbage collection. -/
theorem MarkOfferAsUsed_true_exactly_once (s0 : RedisState)
    (offerID : String) (n : Nat) (h : lookupKey offerID s0.used = none)
    (hn : 0 < n) :
    (markTrace offerID n s0).1 = true :: List.replicate (n - 1) false ∧
    (∀ s : RedisState, ∀ k : String, ∀ v : Int,
      lookupKey k s.used = some v →
      lookupKey k ((MarkOfferAsUsed s offerID).2).used = some v) := by
  constructor
  · obtain ⟨m, rfl⟩ : ∃ m, n = m + 1 := ⟨n - 1, by omega⟩
    obtain ⟨h1, h2⟩ := markOfferAsUsed_of_unused s0 offerID h
    rcases hstep : MarkOfferAsUsed s0 offerID with ⟨b, s1⟩
    rw [hstep] at h1 h2
    simp only at h1 h2
    subst h1
    simp [markTrace, hstep, markTrace_of_used offerID m s1 _ h2]
  · intro s k v hk
    rcases hu : lookupKey offerID s.used with _ | w
    · by_cases hko : k = offerID
      · subst hko; rw [hk] at hu; exact absurd hu (by simp)
      · simp [MarkOfferAsUsed, hu, lookupKey, hko, hk]
    · simp [markOfferAsUsed_of_used s offerID w hu, hk]

/-- Claim C3 witness: three calls on an offer whose key has 100 s left
return true, false, false. -/
theorem MarkOfferAsUsed_true_exactly_once_witness :
    (markTrace "F1" 3 ⟨[("F1", 100)], []⟩).1 =
      true :: List.replicate 2 false :=
  (MarkOfferAsUsed_true_exactly_once ⟨[("F1", 100)], []⟩ "F1" 3 rfl
    (by decide)).1

/-- Claim C8: an unexpired cached entry is returned without calling the
zone service; otherwise the service is called, a fetched zone is returned
(and cached), and on fetch failure the entry observed by the fallback read
is returned when it is still usable against the `now` captured before the
call, else `zone_unavailable`.  In particular a zone-service outage (fetch
failure) cannot fail the lookup while an unexpired entry is cached. -/
theorem getZoneWithCache_cache_fallback (entry1 entry2 : Option ZoneCacheEntry)
    (now nowUpd : Int) (fetch : Option TariffZone) :
    (∀ e, entry1 = some e → now < e.expiresAt →
      getZoneWithCache entry1 now fetch entry2 nowUpd =
        (.ok e.zone, false, entry1)) ∧
    ((∀ e, entry1 = some e → ¬ now < e.expiresAt) →
      (getZoneWithCache entry1 now fetch entry2 nowUpd).2.1 = true ∧
      (∀ z, fetch = some z →
        getZoneWithCache entry1 now fetch entry2 nowUpd =
          (.ok z, true, some ⟨z, nowUpd + zoneCacheTTL⟩)) ∧
      (fetch = none →
        (∀ e, entry2 = some e → now < e.expiresAt →
          (getZoneWithCache entry1 now fetch entry2 nowUpd).1 =
            .ok e.zone) ∧
        ((∀ e, entry2 = some e → ¬ now < e.expiresAt) →
          (getZoneWithCache entry1 now fetch entry2 nowUpd).1 =
            .error .zoneUnavailable))) := by
  constructor
  · rintro e rfl hlt
    simp [getZoneWithCache, hlt]
  · intro hmiss
    have hpath : getZoneWithCache entry1 now fetch entry2 nowUpd =
        zoneFetchPath now fetch entry2 nowUpd := by
      rcases entry1 with _ | e
      · simp [getZoneWithCache]
      · simp [getZoneWithCache, hmiss e rfl]
    rw [hpath]
    refine ⟨?_, ?_, ?_⟩
    · rcases fetch with _ | z
      · rcases entry2 with _ | e
        · simp [zoneFetchPath]
        · by_cases hlt : now < e.expiresAt <;> simp [zoneFetchPath, hlt]
      · simp [zoneFetchPath]
    · rintro z rfl; simp [zoneFetchPath]
    · rintro rfl
      constructor
      · rintro e rfl hlt; simp [zoneFetchPath, hlt]
      · intro hmiss2
        rcases entry2 with _ | e
        · simp [zoneFetchPath]
        · simp [zoneFetchPath, hmiss2 e rfl]

/-- Claim C8 witness: with zone Z9 cached unexpired and the zone service
failing, the cached zone is returned and the upstream is not called; with
nothing cached and the service failing, the result is zone_unavailable. -/
theorem getZoneWithCache_cache_fallback_witness :
    getZoneWithCache (some ⟨⟨"Z9", 9, 1, 2⟩, 100⟩) 50 none
        (some ⟨⟨"Z9", 9, 1, 2⟩, 100⟩) 60 =
      (.ok ⟨"Z9", 9, 1, 2⟩, false, some ⟨⟨"Z9", 9, 1, 2⟩, 100⟩) ∧
    (getZoneWithCache none 50 none none 60).1 =
      .error .zoneUnavailable :=
  ⟨(getZoneWithCache_cache_fallback (some ⟨⟨"Z9", 9, 1, 2⟩, 100⟩)
      (some ⟨⟨"Z9", 9, 1, 2⟩, 100⟩) 50 60 none).1 ⟨⟨"Z9", 9, 1, 2⟩, 100⟩
      rfl (by decide),
   (((getZoneWithCache_cache_fallback none none 50 60 none).2
      (by rintro e ⟨⟩)).2.2 rfl).2 (by rintro e ⟨⟩)⟩

/-- Claim C10 witness: the all-keys-missing body maps to the gateway
fallbacks, not the cold-start defaults. -/
theorem GetConfigs_missing_key_fallbacks_witness :
    (GetConfigs ⟨none, none, none, none⟩).surge = 1 ∧
    (GetConfigs ⟨none, none, none, none⟩).lowChargeDiscount = 1 ∧
    (GetConfigs ⟨none, none, none, none⟩).lowChargeThresholdPercent = 0 ∧
    (GetConfigs
      ⟨none, none, none, none⟩).incompleteRideThresholdSeconds = 0 :=
  ⟨(GetConfigs_missing_key_fallbacks ⟨none, none, none, none⟩).1 rfl,
   (GetConfigs_missing_key_fallbacks ⟨none, none, none, none⟩).2.1 rfl,
   (GetConfigs_missing_key_fallbacks ⟨none, none, none, none⟩).2.2.1 rfl,
   (GetConfigs_missing_key_fallbacks ⟨none, none, none, none⟩).2.2.2.1 rfl⟩

end ScooterService
